import Mathlib

/- Shallow embedding of the chat-state logic of src/healthcare.py.

   Python session state is modelled by the structure SessionState; the
   external model stream is modelled by the parameter type StreamOutcome
   (a normal stream of optional text chunks, or a stream that raises after
   emitting some chunks).  Each handler returns the successor state paired
   with the list of prompts actually sent to the model during the call, so
   that model-call counting claims can be stated. -/

inductive Role where
  | user
  | assistant
deriving DecidableEq, Repr

structure Message where
  role : Role
  content : String
deriving DecidableEq, Repr

/- user_details dict: empty on reset, all three keys set on context-form
   submission (gender and age are strings, weight is an int widget value). -/
structure UserDetails where
  gender : Option String
  age : Option String
  weight : Option Nat
deriving DecidableEq, Repr

def UserDetails.empty : UserDetails := ⟨none, none, none⟩

structure SessionState where
  messages : List Message
  asking_for_details : Bool
  user_details : UserDetails
  current_language : String
  show_prescription_form : Bool
  gemini_chat : Bool
deriving DecidableEq, Repr

/- Outcome of gemini_chat.send_message_stream: either the full list of
   chunks (each chunk.text may be absent), or a raise after emitting a
   list of chunks, carrying the exception text. -/
inductive StreamOutcome where
  | ok (chunks : List (Option String))
  | err (emitted : List (Option String)) (e : String)
deriving DecidableEq, Repr

/- Environment outcomes reset_chat can encounter: no client obtainable,
   client present but genai types missing, chats.create raising, success. -/
inductive ResetEnv where
  | noClient
  | noTypes
  | createFails
  | ok
deriving DecidableEq, Repr

def TRIGGER_KEYWORDS : List String :=
  ["symptom", "constipation", "pain", "fever", "headache", "cold"]

def welcomeMsg : Message :=
  ⟨Role.assistant,
   "*Welcome!* I am your Healthcare Companion. I can provide health information in English, Kannada, Hindi, or Telugu."⟩

def placeholderMsg : Message :=
  ⟨Role.assistant,
   "*Welcome!* (Gemini not yet initialized.) Please check secrets and requirements."⟩

def contextRequiredMsg : Message :=
  ⟨Role.assistant, "*Context Required:* Please fill the form above."⟩

/- Python str.lower over the code points. -/
def pyLower (s : String) : List Char := s.toList.map Char.toLower

/- Python substring containment: needle in hay. -/
def listInfixOf (n : List Char) : List Char → Bool
  | [] => n.isEmpty
  | c :: t => n.isPrefixOf (c :: t) || listInfixOf n t

/- Python str.startswith. -/
def strStartsWith (s p : String) : Bool := p.toList.isPrefixOf s.toList

/- The keyword gate: any(k in user_input.lower() for k in TRIGGER_KEYWORDS). -/
def containsTrigger (u : String) : Bool :=
  TRIGGER_KEYWORDS.any (fun k => listInfixOf k.toList (pyLower u))

/- The final prompt built in handle_final_response from the base prompt,
   st.session_state.current_language and the is_medicine_request flag. -/
def composeFinalPrompt (base_prompt target_lang : String) (is_medicine_request : Bool) : String :=
  if is_medicine_request then
    base_prompt ++ ("\n\nPlease provide this information in *" ++ target_lang ++ "* language.")
  else
    base_prompt ++ ("\n\n(Respond in " ++ target_lang ++ " language)")

/- The user-visible content appended to history for the request. -/
def displayContent (base_prompt : String) (is_medicine_request : Bool) : String :=
  if is_medicine_request then "Requesting info for medicine: " ++ base_prompt else base_prompt

/- The streaming loop: full_response accumulates chunk.text when present and
   truthy; skipped otherwise. -/
def accumChunks (chunks : List (Option String)) : String :=
  chunks.foldl
    (fun acc c =>
      match c with
      | some t => if t = "" then acc else acc ++ t
      | none => acc)
    ""

/- The assistant text finally logged: on a normal stream the accumulated
   chunks; on a raise the except branch REASSIGNS full_response to the error
   line, discarding any partial text; with no gemini_chat session, the fixed
   not-initialized error line. -/
def fullResponse (chat : Bool) (stream : StreamOutcome) : String :=
  if chat then
    match stream with
    | StreamOutcome.ok chunks => accumChunks chunks
    | StreamOutcome.err _ e => "An error occurred while contacting Gemini: " ++ e
  else
    "Error: Chat not initialized. Please check API key and imports."

/- handle_final_response: appends the user message, runs or skips the model
   call depending on the presence of gemini_chat, then appends the assistant
   message.  Second component: prompts actually sent to the model. -/
def handle_final_response (st : SessionState) (stream : StreamOutcome)
    (base_prompt : String) (is_medicine_request : Bool) : SessionState × List String :=
  ({ st with
      messages := st.messages ++
        [⟨Role.user, displayContent base_prompt is_medicine_request⟩,
         ⟨Role.assistant, fullResponse st.gemini_chat stream⟩] },
   if st.gemini_chat then
     [composeFinalPrompt base_prompt st.current_language is_medicine_request]
   else [])

/- The generator predicate inside handle_context_form_submit:
   msg.role == user and not msg.content.startswith of Requesting info. -/
def isOriginalCandidate (m : Message) : Bool :=
  m.role == Role.user && !(strStartsWith m.content "Requesting info")

/- next over reversed(messages) with the fallback default string. -/
def find_original_symptom (msgs : List Message) : String :=
  match msgs.reverse.find? isOriginalCandidate with
  | some m => m.content
  | none => "General health inquiry."

def contextPrompt (original_symptom user_gender user_age : String) (user_weight : Nat) : String :=
  "Original request: " ++ original_symptom ++ "\n" ++
  ("User Details - Gender: " ++ user_gender ++ ", Age: " ++ user_age ++
   ", Weight: " ++ toString user_weight ++ "\n") ++
  "Provide general, educational health information based on this context."

def handle_context_form_submit (st : SessionState) (stream : StreamOutcome)
    (user_gender user_age : String) (user_weight : Nat) : SessionState × List String :=
  let st1 : SessionState :=
    { st with
        user_details := ⟨some user_gender, some user_age, some user_weight⟩,
        asking_for_details := false }
  handle_final_response st1 stream
    (contextPrompt (find_original_symptom st1.messages) user_gender user_age user_weight)
    false

/- reset_chat: placeholder history when no client; early return leaving the
   state untouched when types are missing or chats.create raises; fresh
   welcome history and a new session on success.  current_language is never
   written. -/
def reset_chat (st : SessionState) (env : ResetEnv) : SessionState :=
  match env with
  | ResetEnv.noClient =>
      { st with
          messages := [placeholderMsg],
          asking_for_details := false,
          user_details := UserDetails.empty,
          show_prescription_form := false }
  | ResetEnv.noTypes => st
  | ResetEnv.createFails => st
  | ResetEnv.ok =>
      { st with
          messages := [welcomeMsg],
          asking_for_details := false,
          user_details := UserDetails.empty,
          show_prescription_form := false,
          gemini_chat := true }

/- The fixed medicine prompt built from the submitted medicine name. -/
def medPrompt (medicine_name : String) : String :=
  "Please explain the general usage, purpose, and common symptoms treated by the medicine: \x27" ++
  medicine_name ++
  "\x27. Provide a clear note on when it is typically used."

/- Medicine form submission: the guard med_submitted and medicine_name makes
   an empty name a no-op; otherwise the medicine request runs and the form
   flag is cleared afterwards. -/
def medicine_form_submit (st : SessionState) (stream : StreamOutcome)
    (medicine_name : String) : SessionState × List String :=
  if medicine_name = "" then (st, [])
  else
    let r := handle_final_response st stream (medPrompt medicine_name) true
    ({ r.1 with show_prescription_form := false }, r.2)

/- Free-text input handling at the bottom of the script (only reachable when
   both form flags are false): keyword hit opens the context form without a
   model call, otherwise the standard question flow runs. -/
def handle_user_input (st : SessionState) (stream : StreamOutcome) (u : String) :
    SessionState × List String :=
  if containsTrigger u then
    ({ st with
        messages := st.messages ++ [⟨Role.user, u⟩, contextRequiredMsg],
        asking_for_details := true }, [])
  else
    handle_final_response st stream u false

/- Concrete states used by witnesses and counterexamples. -/

def idleChatState : SessionState :=
  ⟨[welcomeMsg], false, UserDetails.empty, "English", false, true⟩

def askChatState : SessionState :=
  ⟨[welcomeMsg, ⟨Role.user, "I have a headache"⟩, contextRequiredMsg],
   true, UserDetails.empty, "English", false, true⟩

def askNoSessionState : SessionState :=
  ⟨[welcomeMsg, ⟨Role.user, "I have a headache"⟩, contextRequiredMsg],
   true, UserDetails.empty, "English", false, false⟩

def medFormState : SessionState :=
  ⟨[welcomeMsg], false, UserDetails.empty, "English", true, true⟩

def okStream : StreamOutcome := StreamOutcome.ok [some "Dolo 650 is used for fever."]

/- Helper lemmas about the string primitives. -/

theorem isPrefixOf_append_right (l m r : List Char) (h : l.isPrefixOf m = true) :
    l.isPrefixOf (m ++ r) = true := by
  simp at h ⊢
  exact h.trans (m.prefix_append r)

theorem strStartsWith_requesting (s : String) :
    strStartsWith ("Requesting info for medicine: " ++ s) "Requesting info" = true := by
  unfold strStartsWith
  have hsplit : ("Requesting info for medicine: " ++ s).toList =
      "Requesting info for medicine: ".toList ++ s.toList := by
    simp [String.toList, String.data_append]
  rw [hsplit]
  exact isPrefixOf_append_right _ _ _ (by decide)

/-- Claim C3: every invocation of the response routine, with or without an
active model session and for any stream outcome, extends the history by
exactly one user Message immediately followed by one assistant Message. -/
theorem C3_response_appends_user_then_assistant (st : SessionState) (stream : StreamOutcome)
    (base_prompt : String) (is_medicine_request : Bool) :
    ∃ uc ac,
      (handle_final_response st stream base_prompt is_medicine_request).1.messages =
        st.messages ++ [⟨Role.user, uc⟩, ⟨Role.assistant, ac⟩] :=
  ⟨displayContent base_prompt is_medicine_request, fullResponse st.gemini_chat stream, rfl⟩

/-- Claim C6: for every base text and target language the composed prompt is
the base text with exactly one appended language directive and nothing else;
medicine requests get the directive naming provide this information in the
language, general requests get the parenthesised Respond in language form. -/
theorem C6_compose_appends_language_directive (base_prompt target_lang : String) :
    composeFinalPrompt base_prompt target_lang true =
      base_prompt ++ ("\n\nPlease provide this information in *" ++ target_lang ++ "* language.") ∧
    composeFinalPrompt base_prompt target_lang false =
      base_prompt ++ ("\n\n(Respond in " ++ target_lang ++ " language)") :=
  ⟨rfl, rfl⟩

/-- Claim C8: reset never writes the language field, whatever the starting
state and whichever of the four environment outcomes reset encounters. -/
theorem C8_reset_preserves_language (st : SessionState) (env : ResetEnv) :
    (reset_chat st env).current_language = st.current_language := by
  cases env <;> rfl

/-- Claim C2 counterexample: from a three-message state, a reset during which
the client exists but session creation fails returns early and leaves the
history at length 3, so reset does not always yield a length-1 history. -/
theorem C2_counterexample :
    (reset_chat askChatState ResetEnv.createFails).messages.length = 3 := by decide

/-- Claim C2 (amended): reset yields the length-1 welcome history with both
flags false and empty details on success, and the length-1 placeholder
history with the same clearing when no client is obtainable; but when the
client exists and session creation fails, or the genai types are missing,
reset returns early leaving the whole state unchanged. -/
theorem C2_reset_behavior (st : SessionState) :
    ((reset_chat st ResetEnv.ok).messages = [welcomeMsg] ∧
     (reset_chat st ResetEnv.ok).asking_for_details = false ∧
     (reset_chat st ResetEnv.ok).show_prescription_form = false ∧
     (reset_chat st ResetEnv.ok).user_details = UserDetails.empty) ∧
    ((reset_chat st ResetEnv.noClient).messages = [placeholderMsg] ∧
     (reset_chat st ResetEnv.noClient).asking_for_details = false ∧
     (reset_chat st ResetEnv.noClient).show_prescription_form = false ∧
     (reset_chat st ResetEnv.noClient).user_details = UserDetails.empty) ∧
    reset_chat st ResetEnv.createFails = st ∧
    reset_chat st ResetEnv.noTypes = st :=
  ⟨⟨rfl, rfl, rfl, rfl⟩, ⟨rfl, rfl, rfl, rfl⟩, rfl, rfl⟩

/-- Claim C1 counterexample: a stream that raises after emitting the chunk
Para produces a final assistant Message that is exactly the error line; the
partial text Para is discarded, not concatenated with the error string. -/
theorem C1_counterexample :
    (handle_final_response idleChatState
        (StreamOutcome.err [some "Para"] "network interrupted")
        "Tell me about vitamins" false).1.messages.getLast? =
      some ⟨Role.assistant, "An error occurred while contacting Gemini: network interrupted"⟩ ∧
    listInfixOf "Para".toList
      "An error occurred while contacting Gemini: network interrupted".toList = false :=
  ⟨by decide, by decide⟩

/-- Claim C1 (amended): if the model stream raises mid-response, the episode
does not crash - the user Message and an assistant Message are still both
appended - but the recorded assistant Message is exactly the inline error
line; any partial text emitted before the raise is discarded. -/
theorem C1_stream_error_replaces_partial (st : SessionState) (emitted : List (Option String))
    (e base_prompt : String) (is_medicine_request : Bool) (h : st.gemini_chat = true) :
    (handle_final_response st (StreamOutcome.err emitted e) base_prompt is_medicine_request).1.messages =
      st.messages ++
        [⟨Role.user, displayContent base_prompt is_medicine_request⟩,
         ⟨Role.assistant, "An error occurred while contacting Gemini: " ++ e⟩] := by
  simp [handle_final_response, fullResponse, h]

theorem C1_witness :
    idleChatState.gemini_chat = true ∧
    (handle_final_response idleChatState (StreamOutcome.err [some "Para"] "timeout")
        "diet tips" false).1.messages =
      idleChatState.messages ++
        [⟨Role.user, displayContent "diet tips" false⟩,
         ⟨Role.assistant, "An error occurred while contacting Gemini: " ++ "timeout"⟩] :=
  ⟨rfl, C1_stream_error_replaces_partial idleChatState [some "Para"] "timeout" "diet tips" false rfl⟩

/-- Claim C4: any input that case-insensitively contains a trigger keyword as
a substring (no word boundary, so Coldplay matches cold), submitted while
both form flags are false, is appended as a user Message, sets the
awaiting-context flag, appends the fixed context-required assistant Message,
and sends nothing to the model. -/
theorem C4_trigger_opens_context_form (st : SessionState) (stream : StreamOutcome) (u : String)
    (h : containsTrigger u = true) (h1 : st.asking_for_details = false)
    (h2 : st.show_prescription_form = false) :
    handle_user_input st stream u =
      ({ st with
          messages := st.messages ++ [⟨Role.user, u⟩, contextRequiredMsg],
          asking_for_details := true }, []) := by
  simp [handle_user_input, h]

theorem C4_witness :
    containsTrigger "Coldplay tickets" = true ∧
    handle_user_input idleChatState okStream "Coldplay tickets" =
      ({ idleChatState with
          messages := idleChatState.messages ++
            [⟨Role.user, "Coldplay tickets"⟩, contextRequiredMsg],
          asking_for_details := true }, []) :=
  ⟨by decide,
   C4_trigger_opens_context_form idleChatState okStream "Coldplay tickets" (by decide) rfl rfl⟩

/-- Claim C5: any input containing none of the trigger keywords, submitted
while both form flags are false, goes to the response routine with the
medicine flag false, extends the history by one user Message followed by one
assistant Message, and leaves both form flags false. -/
theorem C5_no_trigger_standard_flow (st : SessionState) (stream : StreamOutcome) (u : String)
    (h : containsTrigger u = false) (h1 : st.asking_for_details = false)
    (h2 : st.show_prescription_form = false) :
    handle_user_input st stream u = handle_final_response st stream u false ∧
    (∃ ac, (handle_user_input st stream u).1.messages =
        st.messages ++ [⟨Role.user, u⟩, ⟨Role.assistant, ac⟩]) ∧
    (handle_user_input st stream u).1.asking_for_details = false ∧
    (handle_user_input st stream u).1.show_prescription_form = false := by
  have he : handle_user_input st stream u = handle_final_response st stream u false := by
    simp [handle_user_input, h]
  refine ⟨he, ⟨fullResponse st.gemini_chat stream, ?_⟩, ?_, ?_⟩ <;>
    simp [he, handle_final_response, displayContent, h1, h2]

theorem C5_witness :
    containsTrigger "What is a balanced diet?" = false ∧
    handle_user_input idleChatState okStream "What is a balanced diet?" =
      handle_final_response idleChatState okStream "What is a balanced diet?" false :=
  ⟨by decide,
   (C5_no_trigger_standard_flow idleChatState okStream "What is a balanced diet?"
      (by decide) rfl rfl).1⟩

/-- Claim C7 counterexample: a context-form submission made while the
awaiting-context flag is true but with no active model session sends nothing
to the model, so the claim that exactly one model call is always made fails. -/
theorem C7_counterexample :
    askNoSessionState.asking_for_details = true ∧
    (handle_context_form_submit askNoSessionState okStream "Female" "18-45" 60).2 = [] :=
  ⟨rfl, by decide⟩

/-- Claim C7 (amended): a context-form submission while the awaiting-context
flag is true stores the three values into UserDetails, clears the flag, and,
when an active model session exists, sends exactly one prompt built from the
most recent prior user Message that is not a medicine-lookup request (with
the generic fallback) together with all three context fields; without a
session no model call is made and an error message is recorded instead. -/
theorem C7_context_submit_behavior (st : SessionState) (stream : StreamOutcome)
    (user_gender user_age : String) (user_weight : Nat)
    (hA : st.asking_for_details = true) (h : st.gemini_chat = true) :
    (handle_context_form_submit st stream user_gender user_age user_weight).1.user_details =
      ⟨some user_gender, some user_age, some user_weight⟩ ∧
    (handle_context_form_submit st stream user_gender user_age user_weight).1.asking_for_details =
      false ∧
    (handle_context_form_submit st stream user_gender user_age user_weight).2 =
      [composeFinalPrompt
        (contextPrompt (find_original_symptom st.messages) user_gender user_age user_weight)
        st.current_language false] := by
  refine ⟨?_, ?_, ?_⟩ <;> simp [handle_context_form_submit, handle_final_response, h]

theorem C7_witness :
    askChatState.asking_for_details = true ∧
    askChatState.gemini_chat = true ∧
    (handle_context_form_submit askChatState okStream "Female" "18-45" 60).2 =
      [composeFinalPrompt
        (contextPrompt (find_original_symptom askChatState.messages) "Female" "18-45" 60)
        askChatState.current_language false] :=
  ⟨rfl, rfl,
   (C7_context_submit_behavior askChatState okStream "Female" "18-45" 60 rfl rfl).2.2⟩

/-- Claim C9: submitting the medicine form with an empty name is a no-op at
the public interface - the state (history, details, both flags) is unchanged
and nothing is sent to the model; with a non-empty name the form flag is
cleared, the details are untouched, and the request and response Messages
are appended. -/
theorem C9_empty_medicine_name_noop (st : SessionState) (stream : StreamOutcome) :
    medicine_form_submit st stream "" = (st, []) ∧
    (∀ medicine_name : String, medicine_name ≠ "" →
      (medicine_form_submit st stream medicine_name).1.show_prescription_form = false ∧
      (medicine_form_submit st stream medicine_name).1.user_details = st.user_details ∧
      ∃ ac, (medicine_form_submit st stream medicine_name).1.messages =
        st.messages ++
          [⟨Role.user, "Requesting info for medicine: " ++ medPrompt medicine_name⟩,
           ⟨Role.assistant, ac⟩]) := by
  constructor
  · simp [medicine_form_submit]
  · intro medicine_name hmn
    refine ⟨?_, ?_, ⟨fullResponse st.gemini_chat stream, ?_⟩⟩ <;>
      simp [medicine_form_submit, hmn, handle_final_response, displayContent]

theorem C9_witness :
    medicine_form_submit medFormState okStream "" = (medFormState, []) ∧
    ((medicine_form_submit medFormState okStream "Dolo 650").1.show_prescription_form = false ∧
     (medicine_form_submit medFormState okStream "Dolo 650").1.user_details =
       medFormState.user_details ∧
     ∃ ac, (medicine_form_submit medFormState okStream "Dolo 650").1.messages =
       medFormState.messages ++
         [⟨Role.user, "Requesting info for medicine: " ++ medPrompt "Dolo 650"⟩,
          ⟨Role.assistant, ac⟩]) :=
  ⟨(C9_empty_medicine_name_noop medFormState okStream).1,
   (C9_empty_medicine_name_noop medFormState okStream).2 "Dolo 650" (by decide)⟩

/- Lemma for claim C10: appending a medicine-lookup user Message and its
assistant reply does not change the original-symptom search result. -/
theorem find_original_symptom_append_medicine (msgs : List Message) (s ac : String) :
    find_original_symptom
      (msgs ++ [⟨Role.user, "Requesting info for medicine: " ++ s⟩, ⟨Role.assistant, ac⟩]) =
    find_original_symptom msgs := by
  have h1 : isOriginalCandidate ⟨Role.assistant, ac⟩ = false := by
    simp [isOriginalCandidate]
  have h2 : isOriginalCandidate ⟨Role.user, "Requesting info for medicine: " ++ s⟩ = false := by
    simp [isOriginalCandidate, strStartsWith_requesting]
  unfold find_original_symptom
  rw [List.reverse_append]
  simp [List.find?, h1, h2]

/-- Claim C10: a medicine lookup is recorded as a user Message whose content
starts with the prefix Requesting info for medicine and hence with the
exclusion marker Requesting info, so the original-symptom search, which
skips exactly the user Messages starting with that marker, never selects a
medicine lookup performed between the symptom input and the context-form
submission. -/
theorem C10_medicine_lookup_excluded (st : SessionState) (stream : StreamOutcome)
    (base_prompt : String) :
    (∃ ac, (handle_final_response st stream base_prompt true).1.messages =
        st.messages ++
          [⟨Role.user, "Requesting info for medicine: " ++ base_prompt⟩,
           ⟨Role.assistant, ac⟩]) ∧
    strStartsWith ("Requesting info for medicine: " ++ base_prompt) "Requesting info" = true ∧
    (∀ medicine_name : String, medicine_name ≠ "" →
      find_original_symptom ((medicine_form_submit st stream medicine_name).1.messages) =
        find_original_symptom st.messages) := by
  refine ⟨⟨fullResponse st.gemini_chat stream, rfl⟩, strStartsWith_requesting base_prompt, ?_⟩
  intro medicine_name hmn
  have hmsgs : (medicine_form_submit st stream medicine_name).1.messages =
      st.messages ++
        [⟨Role.user, "Requesting info for medicine: " ++ medPrompt medicine_name⟩,
         ⟨Role.assistant, fullResponse st.gemini_chat stream⟩] := by
    simp [medicine_form_submit, hmn, handle_final_response, displayContent]
  rw [hmsgs]
  exact find_original_symptom_append_medicine st.messages (medPrompt medicine_name)
    (fullResponse st.gemini_chat stream)

theorem C10_witness :
    strStartsWith ("Requesting info for medicine: " ++ "Aspirin") "Requesting info" = true ∧
    find_original_symptom ((medicine_form_submit askChatState okStream "Dolo 650").1.messages) =
      find_original_symptom askChatState.messages :=
  ⟨(C10_medicine_lookup_excluded askChatState okStream "Aspirin").2.1,
   (C10_medicine_lookup_excluded askChatState okStream "Aspirin").2.2 "Dolo 650" (by decide)⟩
